import Mathlib

/-!
Shallow embedding of the CineaMate multi-armed-bandit experimentation
platform (backend/ml): experiment assignment, bandit policies, reward
calculation, guardrails, and the decision engine.  Python floats are
modelled as rationals, timestamps as integers (seconds), database tables
as lists of rows, and each source of randomness (random.random draws,
random.choice indices, Beta samples, MD5 hashes) as an explicit argument,
so that every function is a deterministic, executable Lean definition.
-/

/-- Python int() truncation toward zero on a rational. -/
def pyTrunc (q : ℚ) : Int := if 0 ≤ q then ⌊q⌋ else ⌈q⌉

/-- Python max() over a list of rationals (first element seeds the fold). -/
def listMax : List ℚ → ℚ
  | [] => 0
  | x :: xs => xs.foldl max x

/-- Python max() over a list of naturals. -/
def listMaxNat : List Nat → Nat
  | [] => 0
  | x :: xs => xs.foldl max x

/-- random.choice over a list, with the random draw supplied as an index
taken modulo the list length. -/
def pickMod (l : List String) (i : Nat) : String := l.getD (i % l.length) ""

/-! ## Experiment manager (backend/ml/experiment_manager.py) -/

/-- Row of the experiments table. -/
structure Experiment where
  id : Nat
  start_at : Int
  end_at : Option Int
  traffic_pct : ℚ
  default_policy : String
deriving DecidableEq, Repr

/-- Row of the policy_assignments table. -/
structure PolicyAssignment where
  experiment_id : Nat
  user_id : Nat
  policy : String
  bucket : Nat
deriving DecidableEq, Repr

/-- The assignment-relevant database state: the policy_assignments table. -/
structure AssignDB where
  assignments : List PolicyAssignment
deriving DecidableEq, Repr

/-- The .first() query for an existing (experiment, user) assignment row. -/
def findAssignment (db : AssignDB) (experiment_id user_id : Nat) :
    Option PolicyAssignment :=
  db.assignments.find? fun a =>
    a.experiment_id == experiment_id && a.user_id == user_id

/-- ExperimentManager.assign_user_to_policy.  The MD5 hash of
"{experiment_id}:{user_id}" interpreted as an integer is a deterministic
pure function of the key; it is supplied as the argument hashFn.  The
result is none when the code raises (experiment not found, or an empty
policies list making hash_value % len(policies) divide by zero);
otherwise it is the returned (policy, bucket) pair together with the
database state after the call. -/
def assign_user_to_policy (db : AssignDB) (experiments : List Experiment)
    (hashFn : Nat → Nat → Nat) (now : Int)
    (experiment_id user_id : Nat) (policies : List String) :
    Option ((String × Nat) × AssignDB) :=
  match findAssignment db experiment_id user_id with
  | some existing => some ((existing.policy, existing.bucket), db)
  | none =>
    match experiments.find? (fun e => e.id == experiment_id) with
    | none => none
    | some experiment =>
      if now < experiment.start_at then
        some ((experiment.default_policy, 0), db)
      else if (match experiment.end_at with
               | some e => decide (e < now)
               | none => false) then
        some ((experiment.default_policy, 0), db)
      else
        let hash_value := hashFn experiment_id user_id
        let bucket := hash_value % 100
        let traffic_threshold := pyTrunc (experiment.traffic_pct * 100)
        if (bucket : Int) ≥ traffic_threshold then
          some ((experiment.default_policy, bucket), db)
        else
          match policies[hash_value % policies.length]? with
          | none => none
          | some assigned_policy =>
            some ((assigned_policy, bucket),
              ⟨db.assignments ++
                [⟨experiment_id, user_id, assigned_policy, bucket⟩]⟩)

/-! ## Bandit policy state (backend/ml/policies/base.py) -/

/-- Per-(policy, arm, context) state row, as returned by
PolicyStateManager.get_state. -/
structure ArmState where
  count : Nat
  sum_reward : ℚ
  mean_reward : ℚ
  alpha : ℚ
  beta : ℚ
deriving DecidableEq, Repr

/-- The default state returned when no row exists yet
(count 0, sums 0, Beta prior alpha = beta = 1). -/
def defaultArmState : ArmState :=
  { count := 0, sum_reward := 0, mean_reward := 0, alpha := 1, beta := 1 }

/-- PolicyResult from base.py.  p_score is optional (UCB1 returns None);
confidence none models the float value inf that UCB1 can report for
cold-start arms. -/
structure PolicyResult where
  arm_id : String
  p_score : Option ℚ
  confidence : Option ℚ
deriving DecidableEq, Repr

/-! ## Thompson Sampling (backend/ml/policies/thompson_sampling.py) -/

/-- ThompsonSamplingPolicy.update as a pure state transformer: both the
binary branch and the continuous branch of the source add reward to alpha
and (1 - reward) to beta, so a single equation covers them. -/
def thompsonUpdate (s : ArmState) (reward : ℚ) : ArmState :=
  { count := s.count + 1
    sum_reward := s.sum_reward + reward
    mean_reward := (s.sum_reward + reward) / ((s.count : ℚ) + 1)
    alpha := s.alpha + reward
    beta := s.beta + (1 - reward) }

/-- ThompsonSamplingPolicy._calculate_propensity_score.  The try block
divides by alpha + beta per arm and by the sum of the per-arm means; a
zero denominator raises in Python (float division by zero) and lands in
the except fallback returning 1 / len(arm_states), which the first branch
of the if models.  Otherwise the normalized expected value is clamped to
[0.01, 0.99]. -/
def thompsonPropensity (selected : ArmState) (allStates : List ArmState) : ℚ :=
  let expected_value := selected.alpha / (selected.alpha + selected.beta)
  let denom := (allStates.map fun s => s.alpha / (s.alpha + s.beta)).sum
  if selected.alpha + selected.beta = 0 ∨
      (∃ s ∈ allStates, s.alpha + s.beta = 0) ∨ denom = 0 then
    1 / (allStates.length : ℚ)
  else
    min (max (expected_value / denom) (1 / 100)) (99 / 100)

/-- ThompsonSamplingPolicy.select.  The Beta(alpha, beta) samples are
random draws, supplied as the samples argument; choiceIdx supplies the
np.random.choice tie-breaking draw.  none models the ValueError raised on
an empty arm list. -/
def thompsonSelect (states : String → ArmState) (samples : String → ℚ)
    (arms : List String) (choiceIdx : Nat) : Option PolicyResult :=
  match arms with
  | [] => none
  | _ :: _ =>
    let max_sample := listMax (arms.map samples)
    let best_arms := arms.filter fun a => samples a == max_sample
    let selected_arm := pickMod best_arms choiceIdx
    some { arm_id := selected_arm
           p_score :=
             some (thompsonPropensity (states selected_arm) (arms.map states))
           confidence := some (samples selected_arm) }

/-! ## Epsilon-greedy (backend/ml/policies/epsilon_greedy.py) -/

/-- The exploit-branch loop of EpsilonGreedyPolicy.select: best_mean
starts at -1 and the arms are scanned in order, collecting all arms tied
at the running maximum mean_reward. -/
def egreedyBestFold (states : String → ArmState) (arms : List String) :
    List String × ℚ :=
  arms.foldl
    (fun acc a =>
      let m := (states a).mean_reward
      if m > acc.2 then ([a], m)
      else if m == acc.2 then (acc.1 ++ [a], acc.2)
      else acc)
    ([], -1)

/-- EpsilonGreedyPolicy.select.  coin is the random.random() draw tested
against epsilon; choiceIdx supplies the random.choice draw of whichever
branch runs.  none models the ValueError raised on an empty arm list. -/
def egreedySelect (epsilon : ℚ) (states : String → ArmState)
    (arms : List String) (coin : ℚ) (choiceIdx : Nat) : Option PolicyResult :=
  match arms with
  | [] => none
  | _ :: _ =>
    if coin < epsilon then
      let selected_arm := pickMod arms choiceIdx
      some { arm_id := selected_arm
             p_score := some (1 / (arms.length : ℚ))
             confidence := some (1 / 2) }
    else
      let best := egreedyBestFold states arms
      let selected_arm := pickMod best.1 choiceIdx
      some { arm_id := selected_arm
             p_score := some ((1 - epsilon) + epsilon / (arms.length : ℚ))
             confidence := some best.2 }

/-- EpsilonGreedyPolicy._get_selection_probability.  none models the
ValueError Python max() raises on an empty arm list. -/
def egreedySelectionProbability (epsilon : ℚ) (states : String → ArmState)
    (arms : List String) (arm_id : String) : Option ℚ :=
  match arms with
  | [] => none
  | _ :: _ =>
    let best_mean := listMax (arms.map fun a => (states a).mean_reward)
    let best_arms := arms.filter fun a => (states a).mean_reward == best_mean
    if best_arms.contains arm_id then
      some ((1 - epsilon) + epsilon / (arms.length : ℚ))
    else
      some (epsilon / (arms.length : ℚ))

/-! ## UCB1 (backend/ml/policies/ucb1.py) -/

/-- The UCB value of one arm: none models float inf (cold start, fewer
than min_pulls pulls); cb totalPulls count stands for the real-valued
bonus sqrt(2 * log(max totalPulls 1) / count), which is irrational and is
therefore abstracted as a function argument.  No claim depends on its
value. -/
def ucb1Value (minPulls : Nat) (cb : Nat → Nat → ℚ) (totalPulls : Nat)
    (s : ArmState) : Option ℚ :=
  if s.count < minPulls then none
  else some (s.mean_reward + cb totalPulls s.count)

/-- UCB1Policy.select.  Python float inf compares equal to itself, so
when any arm is cold the best_arms are exactly the cold arms; otherwise
the arms tied at the maximal finite UCB value.  p_score is always None in
the source.  none models the ValueError raised on an empty arm list. -/
def ucb1Select (minPulls : Nat) (cb : Nat → Nat → ℚ)
    (states : String → ArmState) (arms : List String) (choiceIdx : Nat) :
    Option PolicyResult :=
  match arms with
  | [] => none
  | _ :: _ =>
    let total_pulls := (arms.map fun a => (states a).count).sum
    let ucbOf : String → Option ℚ := fun a =>
      ucb1Value minPulls cb total_pulls (states a)
    let max_ucb : Option ℚ :=
      if arms.any fun a => (ucbOf a).isNone then none
      else some (listMax (arms.filterMap ucbOf))
    let best_arms := arms.filter fun a => ucbOf a == max_ucb
    let selected_arm := pickMod best_arms choiceIdx
    some { arm_id := selected_arm
           p_score := none
           confidence := ucbOf selected_arm }

/-! ## Reward calculator (backend/ml/reward_calculator.py) -/

/-- Interaction record kinds produced by _get_user_interactions. -/
inductive InteractionKind
  | rating
  | watch
  | favorite
  | watchlist
deriving DecidableEq, Repr

/-- One interaction dict: value carries the rating value for rating
interactions and the watch_ratio (defaulting to 0) for watch
interactions; it is unused for the other kinds. -/
structure Interaction where
  kind : InteractionKind
  value : ℚ
  timestamp : Int
deriving DecidableEq, Repr

/-- Row of the recommendation_events table, restricted to the fields
compute_reward and update_event_reward read or write. -/
structure EventRow where
  id : Nat
  reward : Option ℚ
  clicked : Bool
  thumbs_up : Bool
  added_to_favorites : Bool
  thumbs_down : Bool
  rated : Bool
  rating_value : Option ℚ
  added_to_watchlist : Bool
  served_at : Option Int
  created_at : Int
deriving DecidableEq, Repr

/-- The window start of an event: served_at or created_at. -/
def eventWindowStart (e : EventRow) : Int := e.served_at.getD e.created_at

/-- default_window_hours = 24, converted to seconds. -/
def rewardWindowSeconds : Int := 24 * 3600

/-- The interaction scan of _compute_binary_reward: the first in-window
signal decides (rating at or above 4 gives 1, at or below 2 gives 0,
neutral ratings fall through; watch_ratio at or above the 0.5 threshold
gives 1; favorite gives 1; watchlist gives 0.7), and the scan returns 0
when nothing fires. -/
def binaryInteractionScan (ws we : Int) : List Interaction → ℚ
  | [] => 0
  | i :: rest =>
    if ws ≤ i.timestamp ∧ i.timestamp ≤ we then
      match i.kind with
      | .rating =>
        if i.value ≥ 4 then 1
        else if i.value ≤ 2 then 0
        else binaryInteractionScan ws we rest
      | .watch =>
        if i.value ≥ 1 / 2 then 1 else binaryInteractionScan ws we rest
      | .favorite => 1
      | .watchlist => 7 / 10
    else binaryInteractionScan ws we rest

/-- RewardCalculator._compute_binary_reward. -/
def compute_binary_reward (e : EventRow) (interactions : List Interaction) : ℚ :=
  if e.clicked then 1
  else if e.thumbs_up then 1
  else if e.added_to_favorites then 1
  else if e.thumbs_down then 0
  else
    let ratingSignal : Option ℚ :=
      if e.rated then
        match e.rating_value with
        | some v => if v ≥ 4 then some 1 else if v ≤ 2 then some 0 else none
        | none => none
      else none
    match ratingSignal with
    | some r => r
    | none =>
      if e.added_to_watchlist then 7 / 10
      else
        let ws := eventWindowStart e
        binaryInteractionScan ws (ws + rewardWindowSeconds) interactions

/-- The contribution of one in-window interaction in
_compute_scaled_reward. -/
def scaledInteractionTerm (ws we : Int) (i : Interaction) : ℚ :=
  if ws ≤ i.timestamp ∧ i.timestamp ≤ we then
    match i.kind with
    | .rating => (i.value - 1) / 4 * (4 / 10)
    | .watch => i.value * (3 / 10)
    | .favorite => 3 / 10
    | .watchlist => 1 / 10
  else 0

/-- RewardCalculator._compute_scaled_reward. -/
def compute_scaled_reward (e : EventRow) (interactions : List Interaction) : ℚ :=
  let base : ℚ :=
    (if e.clicked then 3 / 10 else 0) +
    (if e.thumbs_up then 4 / 10 else 0) +
    (if e.thumbs_down then -(3 / 10) else 0) +
    (if e.added_to_favorites then 5 / 10 else 0) +
    (if e.added_to_watchlist then 2 / 10 else 0) +
    (if e.rated then
      match e.rating_value with
      | some v => (v - 1) / 4 * (6 / 10)
      | none => 0
     else 0)
  let ws := eventWindowStart e
  let withInteractions :=
    base + (interactions.map (scaledInteractionTerm ws (ws + rewardWindowSeconds))).sum
  max 0 (min 1 withInteractions)

/-- The reward_type argument of compute_reward (an unknown string raises
in the source, so the inductive has exactly the two valid values). -/
inductive RewardType
  | binary
  | scaled
deriving DecidableEq, Repr

/-- RewardCalculator.compute_reward with pre-fetched interactions: when
the event already has a reward it is returned unchanged with no
recomputation; otherwise the reward is computed, stored on the event, and
returned.  The pair is (returned reward, event after the call). -/
def compute_reward (e : EventRow) (interactions : List Interaction)
    (reward_type : RewardType) : ℚ × EventRow :=
  match e.reward with
  | some r => (r, e)
  | none =>
    let r :=
      match reward_type with
      | .binary => compute_binary_reward e interactions
      | .scaled => compute_scaled_reward e interactions
    (r, { e with reward := some r })

/-- The mutation performed by update_event_reward on the first row whose
id matches (event ids are unique, and the ORM .first() row is the one
mutated). -/
def setRewardFirst (event_id : Nat) (reward : ℚ) : List EventRow → List EventRow
  | [] => []
  | e :: es =>
    if e.id == event_id then { e with reward := some reward } :: es
    else e :: setRewardFirst event_id reward es

/-- RewardCalculator.update_event_reward: looks the event up by id, and
when found stores the given reward unconditionally and returns True;
returns False (leaving the table unchanged) when no row matches. -/
def update_event_reward (db : List EventRow) (event_id : Nat) (reward : ℚ) :
    Bool × List EventRow :=
  match db.find? (fun e => e.id == event_id) with
  | some _ => (true, setRewardFirst event_id reward db)
  | none => (false, db)

/-! ## Guardrails (backend/ml/guardrails.py) -/

/-- Row of recommendation_events as read by the arm-concentration query:
experiment, serve time, and the (nullable) served arm. -/
structure RecEvent where
  experiment_id : String
  served_at : Int
  arm_id : Option String
deriving DecidableEq, Repr

/-- The WHERE clause shared by the _get_recent_metrics queries:
experiment match and served_at at or after the cutoff. -/
def recentWindow (events : List RecEvent) (experiment_id : String)
    (cutoff : Int) : List RecEvent :=
  events.filter fun e => e.experiment_id == experiment_id && cutoff ≤ e.served_at

/-- The arm_concentration SQL of _get_recent_metrics: over rows with a
non-null arm_id, group by arm and take the top count as a percentage of
the window total, count * 100.0 / total; 0 when the window has no armed
rows (fetchone returns None). -/
def armConcentrationMetric (windowEvents : List RecEvent) : ℚ :=
  let armed := windowEvents.filterMap fun e => e.arm_id
  match armed with
  | [] => 0
  | _ :: _ =>
    let top := listMaxNat (armed.map fun a => (armed.filter (· == a)).length)
    (top : ℚ) * 100 / (armed.length : ℚ)

/-- Guardrail check outcome. -/
inductive GuardrailStatus
  | pass
  | warning
  | fail
deriving DecidableEq, Repr

/-- The arm_concentration threshold from GuardrailsEngine.thresholds. -/
def armConcentrationThreshold : ℚ := 1 / 2

/-- GuardrailsEngine._check_arm_concentration: PASS when the metric value
is strictly below the 0.50 threshold, WARNING otherwise. -/
def checkArmConcentration (concentration : ℚ) : GuardrailStatus :=
  if concentration < armConcentrationThreshold then .pass else .warning

/-! ## Decision engine (backend/ml/decision_engine.py) -/

/-- PolicyPerformance restricted to the fields the decision ladder reads. -/
structure PolicyPerformance where
  policy : String
  mean_reward : ℚ
  p_value : Option ℚ
deriving DecidableEq, Repr

/-- DecisionEngine.bandit_policies. -/
def banditPolicies : List String := ["thompson", "egreedy", "ucb"]

/-- Python max(xs, key=mean_reward) over a nonempty list given as head
and tail: ties keep the earliest element. -/
def maxByMeanFirst (p : PolicyPerformance) (rest : List PolicyPerformance) :
    PolicyPerformance :=
  rest.foldl (fun b q => if q.mean_reward > b.mean_reward then q else b) p

/-- The best bandit policy row (max mean_reward over rows whose policy is
a bandit policy), none when no bandit rows exist. -/
def bestBandit (perf : List PolicyPerformance) : Option PolicyPerformance :=
  match perf.filter (fun p => banditPolicies.contains p.policy) with
  | [] => none
  | b :: bs => some (maxByMeanFirst b bs)

/-- DecisionEngine._calculate_uplift_vs_control: 0 when control or every
bandit row is missing, else the relative uplift of the best bandit over
control; none models the ZeroDivisionError raised when the control mean
is 0. -/
def calculateUpliftVsControl (perf : List PolicyPerformance) : Option ℚ :=
  match perf.find? (fun p => p.policy == "control") with
  | none => some 0
  | some control =>
    match bestBandit perf with
    | none => some 0
    | some best =>
      if control.mean_reward = 0 then none
      else some ((best.mean_reward - control.mean_reward) / control.mean_reward)

/-- DecisionEngine._check_statistical_significance: the best bandit row
must exist alongside a control row and carry a p-value below the 0.05
significance level. -/
def checkStatisticalSignificance (perf : List PolicyPerformance) : Bool :=
  match perf.find? (fun p => p.policy == "control") with
  | none => false
  | some _ =>
    match bestBandit perf with
    | none => false
    | some best =>
      match best.p_value with
      | some pv => decide (pv < 1 / 20)
      | none => false

/-- DecisionEngine._find_best_policy over all rows (not just bandits). -/
def findBestPolicy (perf : List PolicyPerformance) : Option String :=
  match perf with
  | [] => none
  | p :: ps => some (maxByMeanFirst p ps).policy

/-- Whether the best policy overall is one of the bandit policies (the
membership test of the mid-window SHIP branch in _make_decision). -/
def bestPolicyIsBandit (perf : List PolicyPerformance) : Bool :=
  match findBestPolicy perf with
  | some name => banditPolicies.contains name
  | none => false

/-- Ship / iterate / kill. -/
inductive DecisionType
  | ship
  | iterate
  | kill
deriving DecidableEq, Repr

/-- DecisionEngine._make_decision, as a function of the already computed
uplift, significance flag, best-policy-is-bandit flag, and window length
in days.  Returns (decision, confidence, reasoning).  The two mid-window
reasoning strings are f-strings interpolating the uplift as a formatted
percentage in the source; they are abbreviated to their constant prefix
here, while the three strings of the branches the claims touch (short
window and the two max-duration branches) are verbatim. -/
def makeDecision (uplift : ℚ) (significance : Bool) (bestIsBandit : Bool)
    (windowDays : Nat) : DecisionType × ℚ × String :=
  if windowDays < 7 then
    (.iterate, 0, "Insufficient data for decision")
  else if windowDays ≥ 14 then
    if uplift ≥ 3 / 100 ∧ significance then
      (.ship, 8 / 10, "Maximum duration reached with positive results")
    else
      (.kill, 9 / 10, "Maximum duration reached without significant improvement")
  else if uplift ≥ 3 / 100 ∧ significance ∧ bestIsBandit then
    (.ship, min (95 / 100) (7 / 10 + (uplift - 3 / 100) * 10),
      "Significant uplift vs control")
  else if uplift < -(5 / 100) then
    (.kill, 8 / 10, "Significant drop vs control")
  else
    (.iterate, 1 / 2, "Inconclusive results, need more data")

/-! ## Theorems -/

/-- Python int() agrees with the floor on nonnegative rationals. -/
theorem pyTrunc_of_nonneg {q : ℚ} (h : 0 ≤ q) : pyTrunc q = ⌊q⌋ := if_pos h

/-- Claim C1: once a PolicyAssignment row is persisted for an
(experiment, user) pair, every later assign_user_to_policy call returns
exactly the stored (policy, bucket) pair and leaves the assignment table
unchanged, whatever the policies argument, the experiment table, the
clock, or the hash say. -/
theorem C1_sticky_assignment (db : AssignDB) (experiments : List Experiment)
    (hashFn : Nat → Nat → Nat) (now : Int) (experiment_id user_id : Nat)
    (policies : List String) (a : PolicyAssignment)
    (h : findAssignment db experiment_id user_id = some a) :
    assign_user_to_policy db experiments hashFn now experiment_id user_id
        policies = some ((a.policy, a.bucket), db) := by
  unfold assign_user_to_policy
  rw [h]

/-- Witness for C1 at a concrete database holding one assignment row. -/
theorem C1_sticky_assignment_witness :
    assign_user_to_policy ⟨[⟨1, 5, "thompson", 42⟩]⟩ [] (fun _ _ => 0) 0 1 5
        ["egreedy"] = some (("thompson", 42), ⟨[⟨1, 5, "thompson", 42⟩]⟩) :=
  C1_sticky_assignment ⟨[⟨1, 5, "thompson", 42⟩]⟩ [] (fun _ _ => 0) 0 1 5
    ["egreedy"] ⟨1, 5, "thompson", 42⟩ (by decide)

/-- Claim C2: for an active experiment and a user with no stored
assignment, with h the integer value of the MD5 hash of the assignment
key and bucket = h mod 100, the call returns (default_policy, bucket)
and persists nothing when bucket is at or above the floor of
traffic_pct * 100, and otherwise returns policies[h mod |policies|] with
that bucket while appending exactly that assignment row. -/
theorem C2_traffic_gating (db : AssignDB) (experiments : List Experiment)
    (hashFn : Nat → Nat → Nat) (now : Int) (experiment_id user_id : Nat)
    (policies : List String) (e : Experiment)
    (hnone : findAssignment db experiment_id user_id = none)
    (hfind : experiments.find? (fun x => x.id == experiment_id) = some e)
    (hstart : e.start_at ≤ now)
    (hend : ∀ t ∈ e.end_at, now < t)
    (htp : 0 ≤ e.traffic_pct) :
    (((hashFn experiment_id user_id % 100 : Nat) : Int) ≥ ⌊e.traffic_pct * 100⌋ →
      assign_user_to_policy db experiments hashFn now experiment_id user_id
          policies
        = some ((e.default_policy, hashFn experiment_id user_id % 100), db))
    ∧ (((hashFn experiment_id user_id % 100 : Nat) : Int) < ⌊e.traffic_pct * 100⌋ →
        policies ≠ [] →
        ∃ p, policies[hashFn experiment_id user_id % policies.length]? = some p ∧
          assign_user_to_policy db experiments hashFn now experiment_id user_id
              policies
            = some ((p, hashFn experiment_id user_id % 100),
                ⟨db.assignments ++ [⟨experiment_id, user_id, p,
                  hashFn experiment_id user_id % 100⟩]⟩)) := by
  have hendeq :
      (match e.end_at with
       | some t => decide (t < now)
       | none => false) = false := by
    cases hE : e.end_at with
    | none => rfl
    | some t => simpa using not_lt.mpr (le_of_lt (hend t hE))
  have hfloor : pyTrunc (e.traffic_pct * 100) = ⌊e.traffic_pct * 100⌋ :=
    pyTrunc_of_nonneg (by positivity)
  constructor
  · intro hge
    unfold assign_user_to_policy
    rw [hnone, hfind]
    simp only [hendeq, hfloor]
    rw [if_neg (not_lt.mpr hstart), if_neg (by simp), if_pos hge]
  · intro hlt hp
    have hlen : hashFn experiment_id user_id % policies.length <
        policies.length :=
      Nat.mod_lt _ (List.length_pos.mpr hp)
    refine ⟨policies[hashFn experiment_id user_id % policies.length], ?_, ?_⟩
    · exact List.getElem?_eq_getElem hlen
    · unfold assign_user_to_policy
      rw [hnone, hfind]
      simp only [hendeq, hfloor]
      rw [if_neg (not_lt.mpr hstart), if_neg (by simp),
        if_neg (not_le.mpr hlt), List.getElem?_eq_getElem hlen]

/-- Witness for C2: MD5 bucket 85 under traffic_pct 0.8 returns the
default policy with bucket 85 and writes no assignment row. -/
theorem C2_traffic_gating_witness :
    assign_user_to_policy ⟨[]⟩ [⟨1, 0, none, 4 / 5, "control"⟩]
        (fun _ _ => 85) 0 1 99999 ["thompson", "egreedy", "ucb"]
      = some (("control", 85), ⟨[]⟩) :=
  (C2_traffic_gating ⟨[]⟩ [⟨1, 0, none, 4 / 5, "control"⟩] (fun _ _ => 85) 0 1
      99999 ["thompson", "egreedy", "ucb"] ⟨1, 0, none, 4 / 5, "control"⟩
      rfl rfl (le_refl 0) (by simp) (by norm_num)).1
    (by show ((85 % 100 : Nat) : Int) ≥ ⌊(4 / 5 : ℚ) * 100⌋; norm_num)

/-- Counterexample to claim C8: at the instant now = end_at the source
still treats the experiment as running (the check is now > end_at,
strict), so a fresh user is hashed, assigned a policy, and a row is
persisted, instead of the claimed (default_policy, 0) with no write. -/
theorem C8_counterexample :
    assign_user_to_policy ⟨[]⟩ [⟨1, 0, some 10, 1, "control"⟩] (fun _ _ => 0)
        10 1 42 ["thompson"]
      = some (("thompson", 0), ⟨[⟨1, 42, "thompson", 0⟩]⟩) ∧
    ("thompson", (0 : Nat)) ≠ ("control", (0 : Nat)) ∧
    (⟨[⟨1, 42, "thompson", 0⟩]⟩ : AssignDB) ≠ ⟨[]⟩ := by
  refine ⟨?_, by simp, by simp⟩
  unfold assign_user_to_policy findAssignment
  norm_num [pyTrunc]

/-- Claim C8 as amended: for a user with no stored assignment, the call
returns (default_policy, 0) and persists nothing when now < start_at or
when end_at is set and now > end_at (strictly); at now = end_at the
experiment is still inside its window. -/
theorem C8_out_of_window (db : AssignDB) (experiments : List Experiment)
    (hashFn : Nat → Nat → Nat) (now : Int) (experiment_id user_id : Nat)
    (policies : List String) (e : Experiment)
    (hnone : findAssignment db experiment_id user_id = none)
    (hfind : experiments.find? (fun x => x.id == experiment_id) = some e)
    (h : now < e.start_at ∨ ∃ t, e.end_at = some t ∧ t < now) :
    assign_user_to_policy db experiments hashFn now experiment_id user_id
        policies = some ((e.default_policy, 0), db) := by
  unfold assign_user_to_policy
  rw [hnone, hfind]
  dsimp only
  rcases h with h | ⟨t, hT, ht⟩
  · rw [if_pos h]
  · by_cases hs : now < e.start_at
    · rw [if_pos hs]
    · rw [if_neg hs, if_pos (by simp [hT, ht])]

/-- Witness for C8 at a concrete experiment whose end_at lies strictly
in the past. -/
theorem C8_out_of_window_witness :
    assign_user_to_policy ⟨[]⟩ [⟨1, 0, some 10, 1, "control"⟩] (fun _ _ => 0)
        11 1 42 ["thompson"] = some (("control", 0), ⟨[]⟩) :=
  C8_out_of_window ⟨[]⟩ [⟨1, 0, some 10, 1, "control"⟩] (fun _ _ => 0) 11 1 42
    ["thompson"] ⟨1, 0, some 10, 1, "control"⟩ rfl rfl
    (Or.inr ⟨10, rfl, by norm_num⟩)

/-- A left fold of max starting from x yields x or a list member. -/
theorem foldl_max_mem (xs : List ℚ) : ∀ x : ℚ,
    xs.foldl max x = x ∨ xs.foldl max x ∈ xs := by
  induction xs with
  | nil => intro x; exact Or.inl rfl
  | cons y ys ih =>
    intro x
    rcases ih (max x y) with h | h
    · rcases max_choice x y with hm | hm
      · exact Or.inl (by rw [List.foldl_cons, h, hm])
      · exact Or.inr (by rw [List.foldl_cons, h, hm]; exact List.mem_cons_self _ _)
    · exact Or.inr (List.mem_cons_of_mem _ h)

/-- Python max() over a nonempty rational list returns a member. -/
theorem listMax_mem {l : List ℚ} (h : l ≠ []) : listMax l ∈ l := by
  cases l with
  | nil => exact absurd rfl h
  | cons x xs =>
    show xs.foldl max x ∈ x :: xs
    rcases foldl_max_mem xs x with h2 | h2
    · rw [h2]; exact List.mem_cons_self _ _
    · exact List.mem_cons_of_mem _ h2

/-- random.choice modelled by pickMod returns a member of a nonempty
list. -/
theorem pickMod_mem {l : List String} (h : l ≠ []) (i : Nat) :
    pickMod l i ∈ l := by
  have hlen : i % l.length < l.length := Nat.mod_lt _ (List.length_pos.mpr h)
  unfold pickMod
  rw [List.getD_eq_getElem?_getD, List.getElem?_eq_getElem hlen]
  exact List.getElem_mem hlen

/-- The clamp of _calculate_propensity_score stays inside [0.01, 0.99]
whenever the try block completes, which it does for any family of arm
states with positive alpha and nonnegative beta. -/
theorem thompsonPropensity_bounds (sel : ArmState) (allStates : List ArmState)
    (hne : allStates ≠ [])
    (hall : ∀ s ∈ allStates, 0 < s.alpha ∧ 0 ≤ s.beta)
    (hsel : 0 < sel.alpha ∧ 0 ≤ sel.beta) :
    1 / 100 ≤ thompsonPropensity sel allStates ∧
      thompsonPropensity sel allStates ≤ 99 / 100 := by
  unfold thompsonPropensity
  have hdenom :
      0 < (allStates.map fun s => s.alpha / (s.alpha + s.beta)).sum := by
    apply List.sum_pos
    · intro x hx
      rcases List.mem_map.mp hx with ⟨s, hs, rfl⟩
      have := hall s hs
      exact div_pos this.1 (by linarith [this.1, this.2])
    · simpa using hne
  rw [if_neg (by
    push_neg
    refine ⟨by linarith [hsel.1, hsel.2], ?_, ne_of_gt hdenom⟩
    intro s hs
    have := hall s hs
    linarith [this.1, this.2])]
  exact ⟨le_min (le_max_right _ _) (by norm_num), min_le_right _ _⟩

/-- Claim C6: the Thompson update adds the reward to alpha, its
complement to beta, bumps the count and reward sum, keeps the mean equal
to sum over count, and driving the default state (prior alpha = beta = 1)
through the reward sequence 1, 0, 1, 1, 0 lands on alpha 4, beta 3,
count 5, sum 3, mean 3/5. -/
theorem C6_thompson_update (s : ArmState) (r : ℚ) (_h0 : 0 ≤ r) (_h1 : r ≤ 1) :
    (thompsonUpdate s r).alpha = s.alpha + r ∧
    (thompsonUpdate s r).beta = s.beta + (1 - r) ∧
    (thompsonUpdate s r).count = s.count + 1 ∧
    (thompsonUpdate s r).sum_reward = s.sum_reward + r ∧
    (thompsonUpdate s r).mean_reward
      = (thompsonUpdate s r).sum_reward / ((thompsonUpdate s r).count : ℚ) ∧
    List.foldl thompsonUpdate defaultArmState [1, 0, 1, 1, 0]
      = ⟨5, 3, 3 / 5, 4, 3⟩ := by
  refine ⟨rfl, rfl, rfl, rfl, ?_, ?_⟩
  · show (s.sum_reward + r) / ((s.count : ℚ) + 1)
      = (s.sum_reward + r) / (((s.count + 1 : Nat) : ℚ))
    push_cast
    ring
  · norm_num [List.foldl, thompsonUpdate, defaultArmState, ArmState.mk.injEq]

/-- Witness for C6 at the default state with reward one half. -/
theorem C6_thompson_update_witness :
    (thompsonUpdate defaultArmState (1 / 2)).alpha
      = defaultArmState.alpha + 1 / 2 :=
  (C6_thompson_update defaultArmState (1 / 2) (by norm_num) (by norm_num)).1

/-- Claim C7: over any nonempty arm list whose states are reachable
(positive alpha, nonnegative beta, as maintained from the (1, 1) prior by
rewards in [0, 1]), Thompson select returns a p_score inside
[0.01, 0.99], and UCB1 select always returns p_score none. -/
theorem C7_propensity_validity (states : String → ArmState)
    (samples : String → ℚ) (minPulls : Nat) (cb : Nat → Nat → ℚ)
    (arms : List String) (choiceIdx : Nat)
    (harms : arms ≠ [])
    (hstate : ∀ a ∈ arms, 0 < (states a).alpha ∧ 0 ≤ (states a).beta) :
    (∃ res, thompsonSelect states samples arms choiceIdx = some res ∧
      ∃ p, res.p_score = some p ∧ 1 / 100 ≤ p ∧ p ≤ 99 / 100) ∧
    (∃ res, ucb1Select minPulls cb states arms choiceIdx = some res ∧
      res.p_score = none) := by
  cases arms with
  | nil => exact absurd rfl harms
  | cons a as =>
    constructor
    · have hmax : listMax ((a :: as).map samples) ∈ (a :: as).map samples :=
        listMax_mem (by simp)
      rcases List.mem_map.mp hmax with ⟨x, hx, hxeq⟩
      have hbest : x ∈ (a :: as).filter
          fun y => samples y == listMax ((a :: as).map samples) :=
        List.mem_filter.mpr ⟨hx, by simp [hxeq]⟩
      have hbne : ((a :: as).filter
          fun y => samples y == listMax ((a :: as).map samples)) ≠ [] :=
        List.ne_nil_of_mem hbest
      have hselmem : pickMod ((a :: as).filter
          fun y => samples y == listMax ((a :: as).map samples)) choiceIdx
            ∈ (a :: as) :=
        (List.mem_filter.mp (pickMod_mem hbne choiceIdx)).1
      refine ⟨_, rfl, _, rfl, ?_⟩
      exact thompsonPropensity_bounds _ ((a :: as).map states) (by simp)
        (by
          intro s hs
          rcases List.mem_map.mp hs with ⟨y, hy, rfl⟩
          exact hstate y hy)
        (hstate _ hselmem)
    · exact ⟨_, rfl, rfl⟩

/-- Witness for C7 over a single default-state arm. -/
theorem C7_propensity_validity_witness :
    (∃ res, thompsonSelect (fun _ => defaultArmState) (fun _ => 1 / 2)
        ["a"] 0 = some res ∧
      ∃ p, res.p_score = some p ∧ 1 / 100 ≤ p ∧ p ≤ 99 / 100) ∧
    (∃ res, ucb1Select 1 (fun _ _ => 0) (fun _ => defaultArmState) ["a"] 0
        = some res ∧ res.p_score = none) :=
  C7_propensity_validity (fun _ => defaultArmState) (fun _ => 1 / 2) 1
    (fun _ _ => 0) ["a"] 0 (by simp)
    (by intro a _; exact ⟨by norm_num [defaultArmState],
      by norm_num [defaultArmState]⟩)

/-- Arm states where arm a is the unique best (mean 1) and every other
arm has mean 0. -/
def egreedyCexStates : String → ArmState := fun a =>
  if a == "a" then { count := 1, sum_reward := 1, mean_reward := 1,
                     alpha := 1, beta := 1 }
  else { count := 1, sum_reward := 0, mean_reward := 0, alpha := 1, beta := 1 }

/-- Counterexample to claim C3, at epsilon one half over arms a, b with
a the unique best arm.  First, an explore draw (coin 0) that lands on the
unique best arm a reports p_score 1/2, not the claimed
(1 - eps) + eps / 2 = 3/4.  Second, an explore draw landing on the
non-best arm b also reports 1/2, not the claimed eps / 2 = 1/4.  Third,
with both arms tied at mean 0, _get_selection_probability gives each tied
arm the full (1 - eps) + eps / 2 = 3/4, not the claimed
((1 - eps) + eps * 2 / 2) / 2 = 1/2 split. -/
theorem C3_counterexample :
    (egreedySelect (1 / 2) egreedyCexStates ["a", "b"] 0 0
        = some ⟨"a", some (1 / 2), some (1 / 2)⟩ ∧
      egreedyBestFold egreedyCexStates ["a", "b"] = (["a"], 1) ∧
      (1 / 2 : ℚ) ≠ (1 - 1 / 2) + (1 / 2) / 2) ∧
    (egreedySelect (1 / 2) egreedyCexStates ["a", "b"] 0 1
        = some ⟨"b", some (1 / 2), some (1 / 2)⟩ ∧
      (1 / 2 : ℚ) ≠ (1 / 2) / 2) ∧
    (egreedySelectionProbability (1 / 2) (fun _ => defaultArmState)
        ["a", "b"] "a" = some (3 / 4) ∧
      (3 / 4 : ℚ) ≠ ((1 - 1 / 2) + (1 / 2) * 2 / 2) / 2) := by
  refine ⟨⟨?_, ?_, by norm_num⟩, ⟨?_, by norm_num⟩, ⟨?_, by norm_num⟩⟩
  · norm_num [egreedySelect, pickMod]
  · decide
  · norm_num [egreedySelect, pickMod]
  · norm_num [egreedySelectionProbability, listMax, defaultArmState]

/-- Claim C3 as amended: the p_score of select is 1/|arms| on the
explore branch (whatever arm the draw lands on) and
(1 - eps) + eps/|arms| on the exploit branch (whose selected arm is
always among the best); _get_selection_probability gives every arm whose
mean equals the best mean the full (1 - eps) + eps/|arms| with no
division by the tie size, and eps/|arms| to every other arm. -/
theorem C3_propensity (epsilon : ℚ) (states : String → ArmState)
    (arms : List String) (coin : ℚ) (choiceIdx : Nat) (arm_id : String)
    (harms : arms ≠ []) :
    (coin < epsilon →
      ∃ res, egreedySelect epsilon states arms coin choiceIdx = some res ∧
        res.p_score = some (1 / (arms.length : ℚ)))
    ∧ (¬ coin < epsilon →
      ∃ res, egreedySelect epsilon states arms coin choiceIdx = some res ∧
        res.p_score = some ((1 - epsilon) + epsilon / (arms.length : ℚ)))
    ∧ (arm_id ∈ arms →
        (states arm_id).mean_reward
          = listMax (arms.map fun a => (states a).mean_reward) →
        egreedySelectionProbability epsilon states arms arm_id
          = some ((1 - epsilon) + epsilon / (arms.length : ℚ)))
    ∧ ((states arm_id).mean_reward
          ≠ listMax (arms.map fun a => (states a).mean_reward) →
        egreedySelectionProbability epsilon states arms arm_id
          = some (epsilon / (arms.length : ℚ))) := by
  cases arms with
  | nil => exact absurd rfl harms
  | cons a as =>
    refine ⟨fun hc => ?_, fun hc => ?_, fun hmem hbest => ?_, fun hne => ?_⟩
    · exact ⟨_, by unfold egreedySelect; rw [if_pos hc], rfl⟩
    · exact ⟨_, by unfold egreedySelect; rw [if_neg hc], rfl⟩
    · unfold egreedySelectionProbability
      rw [if_pos]
      exact List.elem_eq_true_of_mem
        (List.mem_filter.mpr ⟨hmem, by simp [hbest]⟩)
    · unfold egreedySelectionProbability
      rw [if_neg]
      intro hin
      exact hne
        (by simpa using (List.mem_filter.mp (List.mem_of_elem_eq_true hin)).2)

/-- Witness for C3 on the exploit branch over one default arm. -/
theorem C3_propensity_witness :
    ∃ res, egreedySelect (1 / 10) (fun _ => defaultArmState) ["a"] (1 / 2) 0
        = some res ∧
      res.p_score = some ((1 - 1 / 10) + (1 / 10) / ((1 : ℚ))) := by
  have h := (C3_propensity (1 / 10) (fun _ => defaultArmState) ["a"] (1 / 2) 0
    "a" (by simp)).2.1 (by norm_num)
  simpa using h

/-- A 30-minute window of ten served events for one experiment: arm a is
served three times, seven other arms once each, so the top-arm share is
0.30. -/
def c4Events : List RecEvent :=
  [⟨"exp1", 0, some "a"⟩, ⟨"exp1", 1, some "a"⟩, ⟨"exp1", 2, some "a"⟩,
   ⟨"exp1", 3, some "b"⟩, ⟨"exp1", 4, some "c"⟩, ⟨"exp1", 5, some "d"⟩,
   ⟨"exp1", 6, some "e"⟩, ⟨"exp1", 7, some "f"⟩, ⟨"exp1", 8, some "g"⟩,
   ⟨"exp1", 9, some "h"⟩]

/-- Claim C4 states WARNING iff the top-arm share reaches 0.50, reading
the compared value as that share.  The code computes the metric on a
0..100 percentage scale (count * 100 / total) and still compares it with
the fractional threshold 0.50, so a window whose top arm holds only a
0.30 share yields metric 30, which is at or above 0.50, and WARNING is
returned where the claim (and the module docstring's 50 percent cap)
demand PASS. -/
theorem C4_concentration_units_bug :
    armConcentrationMetric (recentWindow c4Events "exp1" 0) = 30 ∧
    checkArmConcentration
      (armConcentrationMetric (recentWindow c4Events "exp1" 0)) = .warning ∧
    (3 : ℚ) / 10 < 1 / 2 := by
  have h : armConcentrationMetric (recentWindow c4Events "exp1" 0) = 30 := by
    have harmed : (recentWindow c4Events "exp1" 0).filterMap (fun e => e.arm_id)
        = ["a", "a", "a", "b", "c", "d", "e", "f", "g", "h"] := by decide
    have htop : listMaxNat
        ((["a", "a", "a", "b", "c", "d", "e", "f", "g", "h"]).map
          fun a => ((["a", "a", "a", "b", "c", "d", "e", "f", "g", "h"]).filter
            (· == a)).length) = 3 := by decide
    unfold armConcentrationMetric
    rw [harmed]
    dsimp only
    rw [htop]
    norm_num
  refine ⟨h, ?_, by norm_num⟩
  rw [h]
  norm_num [checkArmConcentration, armConcentrationThreshold]

/-- An event whose reward is already set to one half. -/
def c5Event : EventRow :=
  { id := 1, reward := some (1 / 2), clicked := false, thumbs_up := false,
    added_to_favorites := false, thumbs_down := false, rated := false,
    rating_value := none, added_to_watchlist := false, served_at := some 0,
    created_at := 0 }

/-- Counterexample to claim C5: writing a second reward to an event whose
reward is already set is not a no-op — update_event_reward overwrites the
stored one half with nine tenths and still reports true, although it was
claimed to set the field only when unset and to leave the stored value
unchanged. -/
theorem C5_counterexample :
    update_event_reward [c5Event] 1 (9 / 10)
      = (true, [{ c5Event with reward := some (9 / 10) }]) ∧
    some ((9 : ℚ) / 10) ≠ some ((1 : ℚ) / 2) := by
  constructor
  · unfold update_event_reward setRewardFirst
    norm_num [c5Event]
  · simp
    norm_num

/-- Claim C5 as amended: compute_reward on an event whose reward is
already set returns the stored value and leaves the event untouched,
with no recomputation; update_event_reward, however, overwrites
unconditionally whenever a row with the given id exists and returns
whether the row was found (true even when the reward was already set),
and returns false leaving the table unchanged when no row matches. -/
theorem C5_reward_write_semantics (db : List EventRow) (event_id : Nat)
    (reward r0 : ℚ) (e : EventRow) (interactions : List Interaction)
    (reward_type : RewardType) :
    (e.reward = some r0 →
      compute_reward e interactions reward_type = (r0, e))
    ∧ (db.find? (fun x => x.id == event_id) = some e →
        (update_event_reward db event_id reward).1 = true ∧
        (update_event_reward db event_id reward).2.find?
            (fun x => x.id == event_id) = some { e with reward := some reward })
    ∧ (db.find? (fun x => x.id == event_id) = none →
        update_event_reward db event_id reward = (false, db)) := by
  refine ⟨fun h => ?_, fun h => ?_, fun h => ?_⟩
  · unfold compute_reward
    rw [h]
  · constructor
    · unfold update_event_reward
      rw [h]
    · unfold update_event_reward
      rw [h]
      show (setRewardFirst event_id reward db).find? _ = _
      induction db with
      | nil => simp at h
      | cons x xs ih =>
        by_cases hx : x.id == event_id
        · unfold setRewardFirst
          rw [if_pos hx]
          simp only [List.find?, hx, Option.some.injEq] at h
          subst h
          simp [List.find?, hx]
        · have hxf : (x.id == event_id) = false := by simpa using hx
          unfold setRewardFirst
          rw [if_neg hx]
          simp only [List.find?, hxf] at h ⊢
          exact ih h
  · unfold update_event_reward
    rw [h]

/-- Witness for C5, applying the amended theorem both to a table holding
the event (found: overwritten, true) and to an empty table (not found:
false, unchanged). -/
theorem C5_reward_write_semantics_witness :
    ((update_event_reward [c5Event] 1 (9 / 10)).1 = true ∧
      (update_event_reward [c5Event] 1 (9 / 10)).2.find?
          (fun x => x.id == 1) = some { c5Event with reward := some (9 / 10) })
    ∧ compute_reward c5Event [] .binary = (1 / 2, c5Event)
    ∧ update_event_reward [] 1 (9 / 10) = (false, []) :=
  ⟨(C5_reward_write_semantics [c5Event] 1 (9 / 10) (1 / 2) c5Event [] .binary).2.1
      rfl,
   (C5_reward_write_semantics [c5Event] 1 (9 / 10) (1 / 2) c5Event [] .binary).1
      rfl,
   (C5_reward_write_semantics [] 1 (9 / 10) (1 / 2) c5Event [] .binary).2.2 rfl⟩

/-- Claim C10: the binary reward checks the strong positive flags
(clicked, thumbs_up, added_to_favorites) before any negative signal, so
any event carrying one of them earns reward 1 no matter what negative
flags or ratings it also carries. -/
theorem C10_positive_precedence (e : EventRow) (interactions : List Interaction)
    (h : e.clicked = true ∨ e.thumbs_up = true ∨ e.added_to_favorites = true) :
    compute_binary_reward e interactions = 1 := by
  unfold compute_binary_reward
  rcases h with h | h | h
  · rw [if_pos h]
  · by_cases hc : e.clicked
    · rw [if_pos hc]
    · rw [if_neg hc, if_pos h]
  · by_cases hc : e.clicked
    · rw [if_pos hc]
    · by_cases ht : e.thumbs_up
      · rw [if_neg hc, if_pos ht]
      · rw [if_neg hc, if_neg ht, if_pos h]

/-- Witness for C10 on an event with both thumbs flags set and on an
event with clicked set alongside a strong-negative rating of 2. -/
theorem C10_positive_precedence_witness :
    compute_binary_reward
      { id := 1, reward := none, clicked := false, thumbs_up := true,
        added_to_favorites := false, thumbs_down := true, rated := false,
        rating_value := none, added_to_watchlist := false,
        served_at := some 0, created_at := 0 } [] = 1 ∧
    compute_binary_reward
      { id := 2, reward := none, clicked := true, thumbs_up := false,
        added_to_favorites := false, thumbs_down := false, rated := true,
        rating_value := some 2, added_to_watchlist := false,
        served_at := some 0, created_at := 0 } [] = 1 :=
  ⟨C10_positive_precedence _ [] (Or.inr (Or.inl rfl)),
   C10_positive_precedence _ [] (Or.inl rfl)⟩

/-- The significance check succeeds exactly when a control row is present
and the best bandit row carries a p-value below the 0.05 level. -/
theorem checkStatSig_iff (perf : List PolicyPerformance) :
    checkStatisticalSignificance perf = true ↔
      (∃ c, perf.find? (fun p => p.policy == "control") = some c) ∧
      ∃ b, bestBandit perf = some b ∧ ∃ pv, b.p_value = some pv ∧ pv < 1 / 20 := by
  unfold checkStatisticalSignificance
  cases hc : perf.find? (fun p => p.policy == "control") with
  | none => simp
  | some c =>
    cases hb : bestBandit perf with
    | none => simp [hb]
    | some b =>
      cases hpv : b.p_value with
      | none => simp [hpv]
      | some pv => simp [hpv]

/-- Without a control row the uplift is reported as zero. -/
theorem uplift_of_no_control (perf : List PolicyPerformance)
    (h : perf.find? (fun p => p.policy == "control") = none) :
    calculateUpliftVsControl perf = some 0 := by
  unfold calculateUpliftVsControl
  rw [h]

/-- Claim C9: with the computed uplift u, the decision ladder returns
ITERATE with confidence 0 when the window is under 7 days; when the
window reaches 14 days it returns SHIP with confidence 0.8 exactly when
u is at least 0.03 and the best bandit policy carries a p-value below
0.05, and KILL with confidence 0.9 otherwise. -/
theorem C9_decision_ladder (perf : List PolicyPerformance) (windowDays : Nat)
    (u : ℚ) (hu : calculateUpliftVsControl perf = some u) :
    (windowDays < 7 →
      makeDecision u (checkStatisticalSignificance perf)
          (bestPolicyIsBandit perf) windowDays
        = (.iterate, 0, "Insufficient data for decision"))
    ∧ (14 ≤ windowDays →
        ((u ≥ 3 / 100 ∧ ∃ b, bestBandit perf = some b ∧
            ∃ pv, b.p_value = some pv ∧ pv < 1 / 20) →
          makeDecision u (checkStatisticalSignificance perf)
              (bestPolicyIsBandit perf) windowDays
            = (.ship, 8 / 10, "Maximum duration reached with positive results"))
        ∧ (¬ (u ≥ 3 / 100 ∧ ∃ b, bestBandit perf = some b ∧
              ∃ pv, b.p_value = some pv ∧ pv < 1 / 20) →
          makeDecision u (checkStatisticalSignificance perf)
              (bestPolicyIsBandit perf) windowDays
            = (.kill, 9 / 10,
                "Maximum duration reached without significant improvement"))) := by
  refine ⟨fun h7 => ?_, fun h14 => ⟨fun hcond => ?_, fun hcond => ?_⟩⟩
  · unfold makeDecision
    rw [if_pos h7]
  · have hctrl : ∃ c, perf.find? (fun p => p.policy == "control") = some c := by
      cases hc : perf.find? (fun p => p.policy == "control") with
      | some c => exact ⟨c, rfl⟩
      | none =>
        exfalso
        have h0 := uplift_of_no_control perf hc
        rw [hu] at h0
        injection h0 with h0
        rw [h0] at hcond
        exact absurd hcond.1 (by norm_num)
    have hsig : checkStatisticalSignificance perf = true :=
      (checkStatSig_iff perf).mpr ⟨hctrl, hcond.2⟩
    unfold makeDecision
    rw [if_neg (by omega), if_pos h14, if_pos ⟨hcond.1, hsig⟩]
  · have hnsig : ¬ (u ≥ 3 / 100 ∧ checkStatisticalSignificance perf = true) := by
      intro hcontra
      exact hcond ⟨hcontra.1, ((checkStatSig_iff perf).mp hcontra.2).2⟩
    unfold makeDecision
    rw [if_neg (by omega), if_pos h14, if_neg hnsig]

/-- Performance rows with a control at mean one half and a thompson row
at mean three fifths with p-value 0.01. -/
def c9Perf : List PolicyPerformance :=
  [⟨"control", 1 / 2, none⟩, ⟨"thompson", 3 / 5, some (1 / 100)⟩]

/-- Witness for C9 at a 14-day window: uplift one fifth with a
significant best bandit ships. -/
theorem C9_decision_ladder_witness :
    makeDecision (1 / 5) (checkStatisticalSignificance c9Perf)
        (bestPolicyIsBandit c9Perf) 14
      = (.ship, 8 / 10, "Maximum duration reached with positive results") :=
  ((C9_decision_ladder c9Perf 14 (1 / 5)
      (by
        have hbb : bestBandit c9Perf
            = some ⟨"thompson", 3 / 5, some (1 / 100)⟩ := rfl
        have hfind : c9Perf.find? (fun p => p.policy == "control")
            = some ⟨"control", 1 / 2, none⟩ := rfl
        unfold calculateUpliftVsControl
        rw [hfind, hbb]
        norm_num)).2 (by norm_num)).1
    ⟨by norm_num,
     ⟨⟨"thompson", 3 / 5, some (1 / 100)⟩, rfl, ⟨1 / 100, rfl, by norm_num⟩⟩⟩
